import Mathlib

/-
Verification development for the revenue_analysis RBAC backend.

Shallow embedding of the permission-evaluation path (app/utils/permissions.py),
the auth guard (app/dependencies/auth.py, app/crud/user.py), the audit recorder
(app/utils/audit.py, app/crud/audit_log.py, app/schemas/audit_log.py) and the
login flow (app/services/auth.py, app/routers/public/auth.py).

Database tables are embedded as Lean lists of rows; SQLAlchemy queries become
list filters/joins; async stateful code becomes explicit state passing; Python
exceptions that a function may raise become Except/Option results.  UUID primary
keys are embedded as Nat identifiers.  app/core/security.py is not part of the
source tree; the few functions from it that the embedded code calls are modelled
from the spec and marked as such.
-/

/- ===================== Data model (app/models) ===================== -/

/-- Row of the permissions table (app/models/permission.py, class Permission).
Only the columns the embedded queries touch are kept. -/
structure Permission where
  id : Nat
  code : String
  is_active : Bool
deriving DecidableEq, Repr

/-- Row of the roles table (app/models/permission.py, class Role). -/
structure Role where
  id : Nat
  code : String
  is_active : Bool
deriving DecidableEq, Repr

/-- The permission catalog: permissions and roles tables plus the
role_permissions association table of (role_id, permission_id) pairs. -/
structure Catalog where
  permissions : List Permission
  roles : List Role
  role_permissions : List (Nat × Nat)
deriving DecidableEq, Repr

/-- Row of the users table (app/models/user.py, class User); columns the
embedded code reads.  `role` is a bare integer column (UserRole: 1 ADMIN,
2 OPERATIONS, 3 CXO, but any integer can be stored). -/
structure User where
  id : Nat
  email : String
  password_hash : String
  role : Int
  is_active : Bool
  is_deleted : Bool
deriving DecidableEq, Repr

/- ===================== Permission resolver (app/utils/permissions.py) ===================== -/

/-- `_get_role_code_from_value` (permissions.py:136-143): role_map.get with
default "OPERATIONS" for unmapped values. -/
def _get_role_code_from_value (role_value : Int) : String :=
  if role_value = 1 then "ADMIN"
  else if role_value = 2 then "OPERATIONS"
  else if role_value = 3 then "CXO"
  else "OPERATIONS"

/-- Rows of the query in `user_has_permission` (permissions.py:38-48):
select(Permission).join(role_permissions).join(Role).where(Role.code == rc,
Permission.code == pc, Permission.is_active, Role.is_active). -/
def rolePermissionRows (cat : Catalog) (role_code permission_code : String) : List Permission :=
  cat.permissions.filter fun p =>
    p.code == permission_code && p.is_active &&
      cat.role_permissions.any fun rp =>
        rp.2 == p.id &&
          cat.roles.any fun r => r.id == rp.1 && r.code == role_code && r.is_active

/-- `result.scalar_one_or_none()`: the schema's unique constraints on
Permission.code, Role.code and the association primary key make more than one
row impossible, so it is embedded as the first row if any. -/
def scalar_one_or_none (rows : List Permission) : Option Permission :=
  rows.head?

/-- `PermissionChecker.user_has_permission` (permissions.py:16-53). -/
def user_has_permission (cat : Catalog) (user : User) (permission_code : String) : Bool :=
  if user.role = 1 then true
  else
    (scalar_one_or_none
      (rolePermissionRows cat (_get_role_code_from_value user.role) permission_code)).isSome

/-- `PermissionChecker.user_has_any_permission` (permissions.py:55-75):
loop with early return True. -/
def user_has_any_permission (cat : Catalog) (user : User) : List String → Bool
  | [] => false
  | code :: rest =>
    if user_has_permission cat user code then true
    else user_has_any_permission cat user rest

/-- `PermissionChecker.user_has_all_permissions` (permissions.py:77-97):
loop with early return False. -/
def user_has_all_permissions (cat : Catalog) (user : User) : List String → Bool
  | [] => true
  | code :: rest =>
    if !(user_has_permission cat user code) then false
    else user_has_all_permissions cat user rest

/-- Spec-side reading of "code belongs to an active permission attached to the
given role and that role is active" (spec §4.1/§8), stated independently of the
query embedding so the iff with `user_has_permission` has content. -/
def permissionEffectiveForRole (cat : Catalog) (role_code permission_code : String) : Prop :=
  ∃ p ∈ cat.permissions, ∃ r ∈ cat.roles,
    (r.id, p.id) ∈ cat.role_permissions ∧
      r.code = role_code ∧ p.code = permission_code ∧
      p.is_active = true ∧ r.is_active = true

/-- Decidable (Bool) form of `permissionEffectiveForRole`, used by concrete
counterexamples. -/
def permissionEffectiveForRoleB (cat : Catalog) (role_code permission_code : String) : Bool :=
  cat.permissions.any fun p =>
    cat.roles.any fun r =>
      cat.role_permissions.contains (r.id, p.id) &&
        r.code == role_code && p.code == permission_code &&
        p.is_active && r.is_active

/-- An active permission with the given code exists at all (used to state that
the admin bypass grants codes that do not even name an active permission). -/
def activePermissionExists (cat : Catalog) (permission_code : String) : Bool :=
  cat.permissions.any fun p => p.code == permission_code && p.is_active

example : _get_role_code_from_value 2 = "OPERATIONS" := by decide
example : _get_role_code_from_value 7 = "OPERATIONS" := by decide
example : _get_role_code_from_value (-1) = "OPERATIONS" := by decide

/- ===================== Auth guard (app/dependencies/auth.py, app/crud/user.py) ===================== -/

/-- A decoded JWT payload: the claims dict, of which the guard reads "sub". -/
structure TokenPayload where
  sub : Option String
deriving DecidableEq, Repr

/-- A presented bearer token, as the decoder sees it. -/
structure Token where
  payload : TokenPayload
  signature_valid : Bool
  expired : Bool
deriving DecidableEq, Repr

/-- Modelled from the spec: `decode_access_token` lives in app/core/security.py,
which is absent from the source tree.  Spec §6: the token is "verified by
signature and expiry only"; on failure the jose library raises JWTError
(embedded as the error case). -/
def decode_access_token (t : Token) : Except Unit TokenPayload :=
  if t.signature_valid && !t.expired then .ok t.payload
  else .error ()

/-- Decimal-digit value of a character, if any. -/
def charDigitVal (c : Char) : Option Nat :=
  if '0' ≤ c ∧ c ≤ '9' then some (c.toNat - '0'.toNat) else none

/-- Fold a digit list into a number; none on a non-digit. -/
def digitsVal : List Char → Nat → Option Nat
  | [], acc => some acc
  | c :: cs, acc =>
    match charDigitVal c with
    | none => none
    | some d => digitsVal cs (acc * 10 + d)

/-- Stand-in for Python's `UUID(user_id_str)` constructor over the Nat
identifiers of this embedding: parses a decimal identifier, none standing for
the ValueError a malformed identifier raises. -/
def parseUserId (s : String) : Option Nat :=
  match s.data with
  | [] => none
  | cs => digitsVal cs 0

/-- `UserRepository.get_by_id` (app/crud/user.py:15-21): select by id excluding
soft-deleted rows, scalar_one_or_none (id is the primary key, so at most one
row; embedded as the first match). -/
def UserRepository.get_by_id (db : List User) (user_id : Nat) : Option User :=
  (db.filter fun u => u.id == user_id && u.is_deleted == false).head?

/-- `UserRepository.get_by_email` (app/crud/user.py:23-29): select by email
excluding soft-deleted rows (email column is unique). -/
def UserRepository.get_by_email (db : List User) (email : String) : Option User :=
  (db.filter fun u => u.email == email && u.is_deleted == false).head?

/-- The classified failure of the auth guard: the 401 credentials_exception of
get_current_user. -/
inductive AuthFailure where
  | unauthorized
deriving DecidableEq, Repr

/-- `get_current_user` (app/dependencies/auth.py:21-61): decode the token, read
the "sub" claim, parse it as an identifier, look the user up excluding
soft-deleted rows; every failure raises the 401 credentials_exception. -/
def get_current_user (db : List User) (token : Token) : Except AuthFailure User :=
  match decode_access_token token with
  | .error _ => .error .unauthorized
  | .ok payload =>
    match payload.sub with
    | none => .error .unauthorized
    | some s =>
      match parseUserId s with
      | none => .error .unauthorized
      | some user_id =>
        match UserRepository.get_by_id db user_id with
        | none => .error .unauthorized
        | some u => .ok u

/- ===================== Audit data model (app/models/audit_log.py) ===================== -/

/-- ActionType enumeration (app/models/audit_log.py:13-44). -/
inductive ActionType where
  | login | logout | login_failed | password_change
  | user_create | user_update | user_delete | user_activate | user_deactivate
  | role_assign | permission_change
  | data_upload | data_import | data_export | reconciliation_run
  | setting_change | system_update
  | error_occurred | exception_raised
deriving DecidableEq, Repr

/-- The str values of ActionType members. -/
def ActionType.value : ActionType → String
  | .login => "login"
  | .logout => "logout"
  | .login_failed => "login_failed"
  | .password_change => "password_change"
  | .user_create => "user_create"
  | .user_update => "user_update"
  | .user_delete => "user_delete"
  | .user_activate => "user_activate"
  | .user_deactivate => "user_deactivate"
  | .role_assign => "role_assign"
  | .permission_change => "permission_change"
  | .data_upload => "data_upload"
  | .data_import => "data_import"
  | .data_export => "data_export"
  | .reconciliation_run => "reconciliation_run"
  | .setting_change => "setting_change"
  | .system_update => "system_update"
  | .error_occurred => "error_occurred"
  | .exception_raised => "exception_raised"

/-- ResourceType enumeration (audit_log.py:47-55). -/
inductive ResourceType where
  | user | role | permission | data_file | report | setting | system
deriving DecidableEq, Repr

/-- The str values of ResourceType members. -/
def ResourceType.value : ResourceType → String
  | .user => "user"
  | .role => "role"
  | .permission => "permission"
  | .data_file => "data_file"
  | .report => "report"
  | .setting => "setting"
  | .system => "system"

/-- AuditStatus enumeration (audit_log.py:58-62). -/
inductive AuditStatus where
  | success | failure | error
deriving DecidableEq, Repr

/-- The str values of AuditStatus members. -/
def AuditStatus.value : AuditStatus → String
  | .success => "success"
  | .failure => "failure"
  | .error => "error"

/-- ErrorSeverity enumeration (audit_log.py:65-69). -/
inductive ErrorSeverity where
  | warning | error | critical
deriving DecidableEq, Repr

/-- The str values of ErrorSeverity members. -/
def ErrorSeverity.value : ErrorSeverity → String
  | .warning => "warning"
  | .error => "error"
  | .critical => "critical"

/-- Row of the audit_logs table (audit_log.py:72-104).  action_type, status,
severity are stored as their string values; extra_data as an opaque JSON blob. -/
structure AuditLogRow where
  timestamp : Nat
  user_id : Option Nat
  action_type : String
  resource_type : Option String
  resource_id : Option String
  description : String
  ip_address : Option String
  user_agent : Option String
  status : String
  severity : Option String
  error_type : Option String
  stack_trace : Option String
  extra_data : Option String
deriving DecidableEq, Repr

/- ===================== Audit schemas (app/schemas/audit_log.py) ===================== -/

/-- AuditLogCreate pydantic schema (schemas/audit_log.py:11-28). -/
structure AuditLogCreate where
  user_id : Option Nat
  action_type : ActionType
  description : String
  resource_type : Option ResourceType
  resource_id : Option String
  ip_address : Option String
  user_agent : Option String
  status : AuditStatus
  severity : Option ErrorSeverity
  error_type : Option String
  stack_trace : Option String
  extra_data : Option String
deriving DecidableEq, Repr

/-- Constructing an AuditLogCreate runs pydantic validation: description has
min_length=1, so an empty description raises ValidationError (the error case). -/
def mkAuditLogCreate (user_id : Option Nat) (action_type : ActionType)
    (description : String) (resource_type : Option ResourceType)
    (resource_id : Option String) (ip_address : Option String)
    (user_agent : Option String) (status : AuditStatus)
    (severity : Option ErrorSeverity) (error_type : Option String)
    (stack_trace : Option String) (extra_data : Option String) :
    Except Unit AuditLogCreate :=
  if description.length = 0 then .error ()
  else .ok {
    user_id := user_id
    action_type := action_type
    description := description
    resource_type := resource_type
    resource_id := resource_id
    ip_address := ip_address
    user_agent := user_agent
    status := status
    severity := severity
    error_type := error_type
    stack_trace := stack_trace
    extra_data := extra_data }

/- ===================== Audit repository (app/crud/audit_log.py) ===================== -/

/-- The audit_logs table plus the session clock and an injectable persistence
fault (models the database raising from db.add/commit). -/
structure AuditDb where
  now : Nat
  rows : List AuditLogRow
  failing : Bool
deriving DecidableEq, Repr

/-- `AuditLogRepository.create` (crud/audit_log.py:16-46): maps the schema to a
row (enum fields stored as their .value strings), adds and commits it.  When
the store is failing the commit raises (error case) and nothing is persisted.
`rowOfCreate` is the field mapping of crud/audit_log.py:27-40 (enum fields
stored as their .value strings, timestamp defaulted to the clock). -/
def rowOfCreate (now : Nat) (a : AuditLogCreate) : AuditLogRow :=
  { timestamp := now
    user_id := a.user_id
    action_type := a.action_type.value
    resource_type := a.resource_type.map (fun rt => rt.value)
    resource_id := a.resource_id
    description := a.description
    ip_address := a.ip_address
    user_agent := a.user_agent
    status := a.status.value
    severity := a.severity.map (fun sv => sv.value)
    error_type := a.error_type
    stack_trace := a.stack_trace
    extra_data := a.extra_data }

def AuditLogRepository.create (db : AuditDb) (a : AuditLogCreate) :
    AuditDb × Except Unit AuditLogRow :=
  if db.failing then (db, .error ())
  else
    let row := rowOfCreate db.now a
    ({ db with rows := db.rows ++ [row] }, .ok row)

/- ===================== Audit recorder (app/utils/audit.py) ===================== -/

/-- The parts of the FastAPI Request object the audit helpers read: the two
proxy headers, the user-agent header, and the socket peer host. -/
structure Request where
  x_forwarded_for : Option String
  x_real_ip : Option String
  user_agent : Option String
  client_host : Option String
deriving DecidableEq, Repr

/-- Python truthiness of an optional string: None and "" are falsy. -/
def pyTruthyStr : Option String → Bool
  | none => false
  | some s => !s.isEmpty

/-- Python str.strip(): drop whitespace on both ends. -/
def pyStrip (s : String) : String :=
  ⟨((s.data.dropWhile Char.isWhitespace).reverse.dropWhile Char.isWhitespace).reverse⟩

/-- `forwarded_for.split(",")[0]`: everything before the first comma
(str.split always yields at least one piece). -/
def beforeFirstComma (s : String) : String :=
  ⟨s.data.takeWhile (fun c => c ≠ ',')⟩

/-- `get_client_ip` (utils/audit.py:13-40): first X-Forwarded-For entry, else
X-Real-IP, else the socket peer host, else None. -/
def get_client_ip (req : Request) : Option String :=
  if pyTruthyStr req.x_forwarded_for then
    some (pyStrip (beforeFirstComma (req.x_forwarded_for.getD "")))
  else if pyTruthyStr req.x_real_ip then req.x_real_ip
  else req.client_host

/-- `log_audit` (utils/audit.py:43-99): build the schema and persist it; any
exception from either step is caught and None is returned instead
("Don't fail the request if audit logging fails"). -/
def log_audit (db : AuditDb) (user_id : Option Nat) (action_type : ActionType)
    (description : String) (resource_type : Option ResourceType)
    (resource_id : Option String) (ip_address : Option String)
    (user_agent : Option String) (status : AuditStatus)
    (severity : Option ErrorSeverity) (error_type : Option String)
    (stack_trace : Option String) (extra_data : Option String) :
    AuditDb × Option AuditLogRow :=
  match mkAuditLogCreate user_id action_type description resource_type
      resource_id ip_address user_agent status severity error_type
      stack_trace extra_data with
  | .error _ => (db, none)
  | .ok a =>
    match AuditLogRepository.create db a with
    | (db2, .ok row) => (db2, some row)
    | (db2, .error _) => (db2, none)

/-- `log_login` (utils/audit.py:102-131): Login/Success on success,
LoginFailed/Failure with user_id=None on failure; the log_audit result is
discarded. -/
def log_login (db : AuditDb) (user_id : Option Nat) (email : String)
    (req : Request) (success : Bool) : AuditDb :=
  let action_type := if success then ActionType.login else ActionType.login_failed
  let status := if success then AuditStatus.success else AuditStatus.failure
  let description :=
    if success then "User " ++ email ++ " logged in successfully"
    else "Failed login attempt for " ++ email
  (log_audit db (if success then user_id else none) action_type description
    none none (get_client_ip req) req.user_agent status none none none none).1

/-- A Python exception as the severity classifier sees it: its class name and
the names of every class it is an instance of (its mro, own class included). -/
structure PyExn where
  className : String
  classAncestry : List String
deriving DecidableEq, Repr

/-- Python's isinstance against a class of the given name. -/
def isinstanceOf (e : PyExn) (c : String) : Bool :=
  e.classAncestry.contains c

/-- `determine_severity` (utils/audit.py:244-263): isinstance against
SystemError/MemoryError/RuntimeError gives critical; an exact class name of
ValidationError/ValueError/TypeError gives warning; everything else error. -/
def determine_severity (e : PyExn) : ErrorSeverity :=
  if isinstanceOf e "SystemError" || isinstanceOf e "MemoryError"
      || isinstanceOf e "RuntimeError" then
    ErrorSeverity.critical
  else if e.className == "ValidationError" || e.className == "ValueError"
      || e.className == "TypeError" then
    ErrorSeverity.warning
  else
    ErrorSeverity.error

/- ===================== Auth service and login route (app/services/auth.py, app/routers/public/auth.py) ===================== -/

/-- Modelled from the spec: `get_password_hash` lives in app/core/security.py,
absent from the source tree.  The hash is embedded as an injective tagging of
the plain password. -/
def get_password_hash (password : String) : String :=
  "bcrypt$" ++ password

/-- Modelled from the spec: `verify_password` lives in app/core/security.py,
absent from the source tree; it checks the plain password against the stored
hash. -/
def verify_password (plain_password password_hash : String) : Bool :=
  get_password_hash plain_password == password_hash

/-- `AuthService.authenticate_user` (services/auth.py:17-41): unknown email,
inactive account and wrong password all yield None. -/
def authenticate_user (udb : List User) (email password : String) : Option User :=
  match UserRepository.get_by_email udb email with
  | none => none
  | some user =>
    if !user.is_active then none
    else if !(verify_password password user.password_hash) then none
    else some user

/-- The advisory claims `create_user_token` puts in the token (services/auth.py:43-67). -/
structure TokenData where
  sub : Nat
  email : String
  role : Int
deriving DecidableEq, Repr

/-- Modelled from the spec: `create_access_token` lives in app/core/security.py,
absent from the source tree.  Spec §6: the token carries the subject (user id),
an expiry, and advisory email/role claims; the embedding keeps the claims. -/
def create_user_token (user : User) : TokenData :=
  { sub := user.id, email := user.email, role := user.role }

/-- The JSONResponse the login endpoint returns: either the 401 envelope
APIResponse.unauthorized builds, or the 200 envelope with the token data. -/
inductive LoginResult where
  | unauthorized (message detail : String)
  | ok (message : String) (token : TokenData)
deriving DecidableEq, Repr

/-- The `login` endpoint (routers/public/auth.py:19-97): authenticate, audit the
attempt (anonymously on failure), answer 401 with a generic message or 200 with
a token. -/
def login (udb : List User) (adb : AuditDb) (email password : String)
    (req : Request) : AuditDb × LoginResult :=
  match authenticate_user udb email password with
  | none =>
    let adb2 := log_login adb none email req false
    (adb2, .unauthorized "Incorrect email or password" "Authentication failed")
  | some user =>
    let adb2 := log_login adb (some user.id) user.email req true
    (adb2, .ok "Login successful" (create_user_token user))

/- ===================== Audit-log listing (app/schemas/audit_log.py, app/crud/audit_log.py, app/routers/audit_logs.py) ===================== -/

/-- Optional filters of `AuditLogRepository.get_all` (crud/audit_log.py:66-99),
separate from skip/limit. -/
structure AuditLogQuery where
  date_from : Option Nat
  date_to : Option Nat
  user_id : Option Nat
  action_type : Option ActionType
  resource_type : Option ResourceType
  status : Option AuditStatus
  severity : Option ErrorSeverity
  error_type : Option String
  search : Option String
deriving DecidableEq, Repr

/-- The all-None filter set (every parameter left at its None default). -/
def AuditLogQuery.noFilters : AuditLogQuery :=
  { date_from := none, date_to := none, user_id := none, action_type := none
    resource_type := none, status := none, severity := none
    error_type := none, search := none }

/-- ASCII lowering to embed SQL ilike case-insensitivity. -/
def lowerChars (cs : List Char) : List Char :=
  cs.map Char.toLower

/-- Whether pat occurs as a contiguous sublist of hay. -/
def chunkAt : List Char → List Char → Bool
  | _, [] => true
  | [], _ :: _ => false
  | a :: as, b :: bs => a == b && chunkAt as bs

/-- Whether pat occurs somewhere in hay (the empty pattern always matches). -/
def hasChunk : List Char → List Char → Bool
  | hay, pat =>
    match hay with
    | [] => pat.isEmpty
    | _ :: t => chunkAt hay pat || hasChunk t pat

/-- SQL `column.ilike("%pat%")`: case-insensitive substring match. -/
def pyILike (hay pat : String) : Bool :=
  hasChunk (lowerChars hay.data) (lowerChars pat.data)

/-- ilike on a nullable column: NULL matches nothing. -/
def pyILikeOpt (hay : Option String) (pat : String) : Bool :=
  match hay with
  | none => false
  | some h => pyILike h pat

/-- Insert a row into a timestamp-descending list. -/
def insertDescByTs (r : AuditLogRow) : List AuditLogRow → List AuditLogRow
  | [] => [r]
  | x :: xs => if r.timestamp ≤ x.timestamp then x :: insertDescByTs r xs
               else r :: x :: xs

/-- ORDER BY timestamp DESC, embedded as an insertion sort. -/
def sortDescByTs : List AuditLogRow → List AuditLogRow
  | [] => []
  | x :: xs => insertDescByTs x (sortDescByTs xs)

/-- `AuditLogRepository.get_all` (crud/audit_log.py:66-133): clamp the limit to
200, apply the optional filters (string filters follow Python truthiness, so an
empty string is no filter), order by timestamp descending, then offset/limit.
skip and limit are the validated non-negative values. -/
def AuditLogRepository.get_all (db : AuditDb) (skip limit : Nat)
    (q : AuditLogQuery) : List AuditLogRow :=
  let limit := min limit 200
  let rows := db.rows
  let rows := match q.date_from with
    | some d => rows.filter fun r => d ≤ r.timestamp
    | none => rows
  let rows := match q.date_to with
    | some d => rows.filter fun r => r.timestamp ≤ d
    | none => rows
  let rows := match q.user_id with
    | some uid => rows.filter fun r => r.user_id == some uid
    | none => rows
  let rows := match q.action_type with
    | some act => rows.filter fun r => r.action_type == act.value
    | none => rows
  let rows := match q.resource_type with
    | some rt => rows.filter fun r => r.resource_type == some rt.value
    | none => rows
  let rows := match q.status with
    | some st => rows.filter fun r => r.status == st.value
    | none => rows
  let rows := match q.severity with
    | some sv => rows.filter fun r => r.severity == some sv.value
    | none => rows
  let rows := if pyTruthyStr q.error_type then
      rows.filter fun r => pyILikeOpt r.error_type (q.error_type.getD "")
    else rows
  let rows := if pyTruthyStr q.search then
      rows.filter fun r => pyILike r.description (q.search.getD "")
    else rows
  (((sortDescByTs rows).drop skip).take limit)

/-- AuditLogFilter pydantic validation of the pagination query parameters
(schemas/audit_log.py:48-60): skip has ge=0 with default 0, limit has ge=1 and
le=200 with default 50; an out-of-range value raises ValidationError, which the
framework turns into a 422 rejection (the none case). -/
def AuditLogFilter.validatePagination (skipQ limitQ : Option Int) :
    Option (Int × Int) :=
  let skip := skipQ.getD 0
  let limit := limitQ.getD 50
  if 0 ≤ skip ∧ 1 ≤ limit ∧ limit ≤ 200 then some (skip, limit) else none

/-- The `list_audit_logs` route (routers/audit_logs.py:20-100) as seen by an
administrator: validate the query parameters, fetch the page, and echo
skip/limit in the response envelope; none is the 422 validation rejection. -/
def list_audit_logs (db : AuditDb) (skipQ limitQ : Option Int)
    (q : AuditLogQuery) : Option (List AuditLogRow × Int × Int) :=
  match AuditLogFilter.validatePagination skipQ limitQ with
  | none => none
  | some (skip, limit) =>
    some (AuditLogRepository.get_all db skip.toNat limit.toNat q, skip, limit)

/- ===================== Shared lemmas ===================== -/

/-- The head of a filtered list exists iff some element satisfies the filter. -/
theorem filter_head_isSome_iff {α : Type} (p : α → Bool) (l : List α) :
    ((l.filter p).head?).isSome = true ↔ ∃ x ∈ l, p x = true := by
  induction l with
  | nil => simp
  | cons a t ih => by_cases h : p a <;> simp [List.filter_cons, h, ih]

/-- For a non-administrator, `user_has_permission` holds exactly when the code
names an active permission attached (via role_permissions) to an active role
whose code is the one the user's role value maps to. -/
theorem user_has_permission_iff (cat : Catalog) (user : User) (code : String)
    (h : user.role ≠ 1) :
    user_has_permission cat user code = true ↔
      permissionEffectiveForRole cat (_get_role_code_from_value user.role) code := by
  unfold user_has_permission scalar_one_or_none rolePermissionRows permissionEffectiveForRole
  rw [if_neg h, filter_head_isSome_iff]
  simp only [Bool.and_eq_true, beq_iff_eq, List.any_eq_true]
  constructor
  · rintro ⟨p, hp, ⟨hcode, hact⟩, rp, hrp, hrp2, r, hr, ⟨hrid, hrcode⟩, hract⟩
    refine ⟨p, hp, r, hr, ?_, hrcode, hcode, hact, hract⟩
    have hpair : (r.id, p.id) = rp := by
      obtain ⟨a, b⟩ := rp
      simp only [Prod.mk.injEq]
      exact ⟨hrid, hrp2.symm⟩
    exact hpair ▸ hrp
  · rintro ⟨p, hp, r, hr, hmem, hrcode, hcode, hact, hract⟩
    exact ⟨p, hp, ⟨hcode, hact⟩, (r.id, p.id), hmem, rfl, r, hr, ⟨rfl, hrcode⟩, hract⟩

/- ===================== Sample data for concrete witnesses ===================== -/

/-- A small catalog: an active permission attached to the active OPERATIONS
role, an inactive permission attached to ADMIN, and the active permission also
attached to the inactive CXO role. -/
def sampleCatalog : Catalog :=
  { permissions := [⟨10, "reconciliation.data.read", true⟩, ⟨11, "users.create", false⟩]
    roles := [⟨1, "ADMIN", true⟩, ⟨2, "OPERATIONS", true⟩, ⟨3, "CXO", false⟩]
    role_permissions := [(2, 10), (1, 11), (3, 10)] }

/-- An active operations user (role value 2). -/
def sampleOps : User := ⟨100, "ops@x.com", "bcrypt$pw", 2, true, false⟩

/-- An active administrator (role value 1). -/
def sampleAdmin : User := ⟨101, "admin@x.com", "bcrypt$pw", 1, true, false⟩

/-- An active user with the unmapped role value 42. -/
def sampleUnmapped : User := ⟨103, "u@x.com", "bcrypt$pw", 42, true, false⟩

/- ===================== Claims ===================== -/

/-- C1: an administrator (role value 1) is granted every permission code —
in particular every active one — regardless of role-permission associations,
and a non-administrator is granted a code iff it names an active permission
attached to the user's (mapped) role and that role is active; otherwise
(inactive permission, inactive role, no association) the check is false. -/
theorem user_has_permission_spec (cat : Catalog) (user : User) (code : String) :
    (user.role = 1 → user_has_permission cat user code = true) ∧
    (user.role ≠ 1 →
      (user_has_permission cat user code = true ↔
        permissionEffectiveForRole cat (_get_role_code_from_value user.role) code)) := by
  constructor
  · intro h
    unfold user_has_permission
    rw [if_pos h]
  · intro h
    exact user_has_permission_iff cat user code h

/-- Witness for C1: the operations user holds the active attached code in the
sample catalog, through the non-administrator direction of the theorem. -/
theorem user_has_permission_spec_witness :
    user_has_permission sampleCatalog sampleOps "reconciliation.data.read" = true :=
  ((user_has_permission_spec sampleCatalog sampleOps "reconciliation.data.read").2
    (by decide)).mpr (by unfold permissionEffectiveForRole; decide)

/-- C2 counterexample: the claim says no user — the administrator included —
is granted an inactive or nonexistent code, but the admin bypass returns true
for a code that names no active permission at all (here over an empty catalog). -/
theorem admin_granted_nonexistent_code :
    user_has_permission ⟨[], [], []⟩ sampleAdmin "no.such.code" = true ∧
      activePermissionExists ⟨[], [], []⟩ "no.such.code" = false := by
  decide

/-- C2 amended: for every non-administrator user, `user_has_permission` returns
true only if the code names an active permission attached to an active role;
the administrator bypass (role value 1) is exempt and returns true regardless
of the code's existence or activity. -/
theorem non_admin_only_active_granted (cat : Catalog) (user : User) (code : String)
    (h : user.role ≠ 1) (hgrant : user_has_permission cat user code = true) :
    ∃ p ∈ cat.permissions, ∃ r ∈ cat.roles,
      (r.id, p.id) ∈ cat.role_permissions ∧ p.code = code ∧
        p.is_active = true ∧ r.is_active = true := by
  obtain ⟨p, hp, r, hr, hmem, _, hcode, hact, hract⟩ :=
    (user_has_permission_iff cat user code h).mp hgrant
  exact ⟨p, hp, r, hr, hmem, hcode, hact, hract⟩

/-- Witness for C2 (amended): instantiated for the sample operations user and
the active attached code. -/
theorem non_admin_only_active_granted_witness :
    ∃ p ∈ sampleCatalog.permissions, ∃ r ∈ sampleCatalog.roles,
      (r.id, p.id) ∈ sampleCatalog.role_permissions ∧
        p.code = "reconciliation.data.read" ∧
        p.is_active = true ∧ r.is_active = true :=
  non_admin_only_active_granted sampleCatalog sampleOps "reconciliation.data.read"
    (by decide) (by decide)

/-- C4: `user_has_any_permission` is the logical OR and
`user_has_all_permissions` the logical AND of the per-code
`user_has_permission` results, with `hasAll [] = true` and `hasAny [] = false`. -/
theorem has_any_all_or_and (cat : Catalog) (user : User) (codes : List String) :
    user_has_any_permission cat user codes = codes.any (user_has_permission cat user) ∧
    user_has_all_permissions cat user codes = codes.all (user_has_permission cat user) ∧
    user_has_all_permissions cat user [] = true ∧
    user_has_any_permission cat user [] = false := by
  have hany : ∀ cs : List String,
      user_has_any_permission cat user cs = cs.any (user_has_permission cat user) := by
    intro cs
    induction cs with
    | nil => rfl
    | cons c t ih =>
      by_cases h : user_has_permission cat user c <;>
        simp [user_has_any_permission, h, ih]
  have hall : ∀ cs : List String,
      user_has_all_permissions cat user cs = cs.all (user_has_permission cat user) := by
    intro cs
    induction cs with
    | nil => rfl
    | cons c t ih =>
      by_cases h : user_has_permission cat user c <;>
        simp [user_has_all_permissions, h, ih]
  exact ⟨hany codes, hall codes, rfl, rfl⟩

/-- C5: every role value outside {1, 2, 3} maps to the "OPERATIONS" role code,
so such a user is silently evaluated against the Operations permission set
(the same catalog lookup an Operations user gets) rather than erroring or
being denied outright. -/
theorem unmapped_role_defaults_to_operations (cat : Catalog) (user : User)
    (code : String) (h1 : user.role ≠ 1) (h2 : user.role ≠ 2) (h3 : user.role ≠ 3) :
    _get_role_code_from_value user.role = "OPERATIONS" ∧
    user_has_permission cat user code =
      (scalar_one_or_none (rolePermissionRows cat "OPERATIONS" code)).isSome := by
  have hmap : _get_role_code_from_value user.role = "OPERATIONS" := by
    unfold _get_role_code_from_value
    rw [if_neg h1, if_neg h2, if_neg h3]
  refine ⟨hmap, ?_⟩
  unfold user_has_permission
  rw [if_neg h1, hmap]

/-- Witness for C5: the role-42 user is granted exactly what the OPERATIONS
lookup yields in the sample catalog. -/
theorem unmapped_role_defaults_to_operations_witness :
    user_has_permission sampleCatalog sampleUnmapped "reconciliation.data.read" =
      (scalar_one_or_none
        (rolePermissionRows sampleCatalog "OPERATIONS" "reconciliation.data.read")).isSome :=
  (unmapped_role_defaults_to_operations sampleCatalog sampleUnmapped
    "reconciliation.data.read" (by decide) (by decide) (by decide)).2

/-- C6: a validly signed, unexpired token whose subject identifies a
soft-deleted user is rejected by `get_current_user` with the 401
credentials_exception, because `UserRepository.get_by_id` excludes soft-deleted
rows from the subject lookup. -/
theorem soft_deleted_subject_unauthorized (db : List User) (token : Token)
    (s : String) (uid : Nat)
    (hsig : token.signature_valid = true) (hexp : token.expired = false)
    (hsub : token.payload.sub = some s) (hparse : parseUserId s = some uid)
    (_hsubject : ∃ u ∈ db, u.id = uid ∧ u.is_deleted = true)
    (hdel : ∀ u ∈ db, u.id = uid → u.is_deleted = true) :
    get_current_user db token = .error .unauthorized := by
  have hlookup : UserRepository.get_by_id db uid = none := by
    unfold UserRepository.get_by_id
    have hnil : (db.filter fun u => u.id == uid && u.is_deleted == false) = [] := by
      rw [List.filter_eq_nil_iff]
      intro u hu
      by_cases hid : u.id = uid
      · have := hdel u hu hid
        simp [hid, this]
      · simp [hid]
    rw [hnil]
    rfl
  unfold get_current_user decode_access_token
  rw [hsig, hexp]
  simp only [Bool.not_false, Bool.and_true, if_true]
  rw [hsub]
  simp only [hparse, hlookup]

/-- Witness for C6: a one-user store whose only user (id 5) is soft-deleted,
and a good token for subject "5". -/
theorem soft_deleted_subject_unauthorized_witness :
    get_current_user [⟨5, "gone@x.com", "bcrypt$pw", 2, false, true⟩]
        ⟨⟨some "5"⟩, true, false⟩ = .error .unauthorized :=
  soft_deleted_subject_unauthorized
    [⟨5, "gone@x.com", "bcrypt$pw", 2, false, true⟩]
    ⟨⟨some "5"⟩, true, false⟩ "5" 5
    rfl rfl rfl (by decide) (by decide) (by decide)

/-- With a working store, a successful-login record appends exactly the row of
the Login/Success schema entry built by log_login. -/
theorem log_login_success_row (adb : AuditDb) (uid : Option Nat) (email : String)
    (req : Request) (hok : adb.failing = false) :
    (log_login adb uid email req true).rows = adb.rows ++
      [rowOfCreate adb.now
        ⟨uid, ActionType.login, "User " ++ email ++ " logged in successfully",
          none, none, get_client_ip req, req.user_agent, AuditStatus.success,
          none, none, none, none⟩] := by
  unfold log_login log_audit mkAuditLogCreate AuditLogRepository.create
  have hS : " logged in successfully".length = 23 := rfl
  simp [hok, hS]

/-- With a working store, a failed-login record appends exactly the row of the
LoginFailed/Failure schema entry built by log_login, with no user id no matter
which user id was passed in. -/
theorem log_login_failure_row (adb : AuditDb) (uid : Option Nat) (email : String)
    (req : Request) (hok : adb.failing = false) :
    (log_login adb uid email req false).rows = adb.rows ++
      [rowOfCreate adb.now
        ⟨none, ActionType.login_failed, "Failed login attempt for " ++ email,
          none, none, get_client_ip req, req.user_agent, AuditStatus.failure,
          none, none, none, none⟩] := by
  unfold log_login log_audit mkAuditLogCreate AuditLogRepository.create
  have hF : "Failed login attempt for ".length = 25 := rfl
  simp [hok, hF]

/-- C7: when persisting the audit entry fails, `log_audit` catches the error
and returns None in place of the entry instead of propagating, with nothing
appended to the log; consequently the login endpoint's response is the same
whether or not the audit store is failing — the primary operation is
unaffected. -/
theorem audit_failure_suppressed (adb : AuditDb) (user_id : Option Nat)
    (action_type : ActionType) (descr : String)
    (resource_type : Option ResourceType)
    (resource_id ip_address user_agent : Option String) (status : AuditStatus)
    (severity : Option ErrorSeverity)
    (error_type stack_trace extra_data : Option String)
    (udb : List User) (email password : String) (req : Request)
    (now : Nat) (rows : List AuditLogRow)
    (hfail : adb.failing = true) :
    log_audit adb user_id action_type descr resource_type resource_id
        ip_address user_agent status severity error_type stack_trace
        extra_data = (adb, none) ∧
    (login udb ⟨now, rows, true⟩ email password req).2 =
      (login udb ⟨now, rows, false⟩ email password req).2 := by
  constructor
  · unfold log_audit mkAuditLogCreate AuditLogRepository.create
    by_cases h : descr.length = 0
    · simp [h]
    · simp [h, hfail]
  · rcases hauth : authenticate_user udb email password with _ | u <;>
      simp [login, hauth]

/-- Witness for C7: a failing one-entry store, a concrete audit call and a
concrete login request. -/
theorem audit_failure_suppressed_witness :
    log_audit ⟨3, [], true⟩ (some 9) ActionType.user_create "created"
        (some ResourceType.user) (some "9") none none AuditStatus.success
        none none none none = (⟨3, [], true⟩, none) :=
  (audit_failure_suppressed ⟨3, [], true⟩ (some 9) ActionType.user_create
    "created" (some ResourceType.user) (some "9") none none
    AuditStatus.success none none none none
    [] "a@x.com" "pw" ⟨none, none, none, none⟩ 3 [] rfl).1

/-- C8: with a working store, a successful login is recorded as an entry with
action_type "login", status "success" and the actor's user id, and a failed
login as an entry with action_type "login_failed", status "failure" and no
user id — whatever user id value the caller passed in. -/
theorem log_login_entry_fields (adb : AuditDb) (uid : Nat) (anyUid : Option Nat)
    (email : String) (req : Request) (hok : adb.failing = false) :
    (∃ r, (log_login adb (some uid) email req true).rows = adb.rows ++ [r] ∧
      r.action_type = "login" ∧ r.status = "success" ∧ r.user_id = some uid) ∧
    (∃ r, (log_login adb anyUid email req false).rows = adb.rows ++ [r] ∧
      r.action_type = "login_failed" ∧ r.status = "failure" ∧
      r.user_id = none) := by
  constructor
  · exact ⟨_, log_login_success_row adb (some uid) email req hok, rfl, rfl, rfl⟩
  · exact ⟨_, log_login_failure_row adb anyUid email req hok, rfl, rfl, rfl⟩

/-- Witness for C8: concrete login records over an empty working store. -/
theorem log_login_entry_fields_witness :
    ∃ r, (log_login ⟨0, [], false⟩ (some 7) "a@x.com"
        ⟨none, none, some "agent", some "10.0.0.1"⟩ true).rows = [] ++ [r] ∧
      r.action_type = "login" ∧ r.status = "success" ∧ r.user_id = some 7 :=
  (log_login_entry_fields ⟨0, [], false⟩ 7 (some 7) "a@x.com"
    ⟨none, none, some "agent", some "10.0.0.1"⟩ rfl).1

/-- C10: when the login email resolves to an existing, non-deleted user whose
is_active flag is false, `authenticate_user` returns None even for the correct
password, so the endpoint answers with the same generic 401 envelope as a
wrong password (not a forbidden/inactive response) and appends an anonymous
failed-login audit entry. -/
theorem inactive_user_login_generic_unauthorized (udb : List User)
    (adb : AuditDb) (email password : String) (req : Request) (user : User)
    (hfind : UserRepository.get_by_email udb email = some user)
    (hinactive : user.is_active = false)
    (_hpw : verify_password password user.password_hash = true)
    (hok : adb.failing = false) :
    authenticate_user udb email password = none ∧
    (login udb adb email password req).2 =
      .unauthorized "Incorrect email or password" "Authentication failed" ∧
    (∃ r, (login udb adb email password req).1.rows = adb.rows ++ [r] ∧
      r.action_type = "login_failed" ∧ r.status = "failure" ∧
      r.user_id = none) := by
  have hauth : authenticate_user udb email password = none := by
    unfold authenticate_user
    rw [hfind]
    simp [hinactive]
  refine ⟨hauth, ?_, ?_⟩
  · unfold login
    rw [hauth]
  · unfold login
    rw [hauth]
    exact ⟨_, log_login_failure_row adb none email req hok, rfl, rfl, rfl⟩

/-- Witness for C10: a store holding one inactive user, and a login with that
user's actual password. -/
theorem inactive_user_login_generic_unauthorized_witness :
    (login [⟨8, "sleepy@x.com", "bcrypt$pw", 2, false, false⟩] ⟨0, [], false⟩
        "sleepy@x.com" "pw" ⟨none, none, none, none⟩).2 =
      .unauthorized "Incorrect email or password" "Authentication failed" :=
  (inactive_user_login_generic_unauthorized
    [⟨8, "sleepy@x.com", "bcrypt$pw", 2, false, false⟩] ⟨0, [], false⟩
    "sleepy@x.com" "pw" ⟨none, none, none, none⟩
    ⟨8, "sleepy@x.com", "bcrypt$pw", 2, false, false⟩
    (by decide) rfl (by decide) rfl).2.1

/-- C9: `determine_severity` classifies an instance of SystemError, MemoryError
or RuntimeError — subclasses included, since the check is isinstance — as
critical; an exception whose class name is exactly ValidationError, ValueError
or TypeError (which, in Python's actual exception hierarchy, is never also an
instance of the critical classes) as warning; and everything else as error. -/
theorem determine_severity_classification (e : PyExn) :
    ((isinstanceOf e "SystemError" = true ∨ isinstanceOf e "MemoryError" = true ∨
        isinstanceOf e "RuntimeError" = true) →
      determine_severity e = ErrorSeverity.critical) ∧
    ((e.className = "ValidationError" ∨ e.className = "ValueError" ∨
        e.className = "TypeError") →
      isinstanceOf e "SystemError" = false →
      isinstanceOf e "MemoryError" = false →
      isinstanceOf e "RuntimeError" = false →
      determine_severity e = ErrorSeverity.warning) ∧
    (isinstanceOf e "SystemError" = false →
      isinstanceOf e "MemoryError" = false →
      isinstanceOf e "RuntimeError" = false →
      e.className ≠ "ValidationError" → e.className ≠ "ValueError" →
      e.className ≠ "TypeError" →
      determine_severity e = ErrorSeverity.error) := by
  unfold determine_severity
  refine ⟨?_, ?_, ?_⟩
  · rintro (h | h | h) <;> simp [h]
  · rintro (h | h | h) h1 h2 h3 <;> simp [h, h1, h2, h3]
  · intro h1 h2 h3 h4 h5 h6
    simp [h1, h2, h3, h4, h5, h6]

/-- Witness for C9: a RecursionError (a RuntimeError subclass) is classified
critical through the isinstance branch of the theorem. -/
theorem determine_severity_classification_witness :
    determine_severity
      ⟨"RecursionError",
        ["RecursionError", "RuntimeError", "Exception", "BaseException"]⟩ =
      ErrorSeverity.critical :=
  (determine_severity_classification
    ⟨"RecursionError",
      ["RecursionError", "RuntimeError", "Exception", "BaseException"]⟩).1
    (Or.inr (Or.inr (by decide)))

/-- C3 counterexample: a request with limit=500 does not succeed with the
limit clamped to 200 — the AuditLogFilter schema bound (le=200) rejects it,
so the route never answers a page at all (422 validation rejection). -/
theorem limit_500_rejected_not_clamped :
    AuditLogFilter.validatePagination (some 0) (some 500) = none ∧
    list_audit_logs ⟨0, [], false⟩ (some 0) (some 500)
      AuditLogQuery.noFilters = none := by
  decide

/-- C3 amended: a listing request whose limit exceeds 200 is rejected by the
schema validation (limit has ge=1, le=200) rather than clamped; a request that
omits limit gets the default page size 50; and the repository's own clamp
min(limit, 200) means no call of get_all ever returns more than 200 entries. -/
theorem audit_log_page_size_bounds (db : AuditDb) (skipQ : Option Int) (l : Int)
    (q : AuditLogQuery) (skip limit : Nat) (h200 : 200 < l) :
    list_audit_logs db skipQ (some l) q = none ∧
    (∀ p, AuditLogFilter.validatePagination skipQ none = some p → p.2 = 50) ∧
    (AuditLogRepository.get_all db skip limit q).length ≤ 200 := by
  refine ⟨?_, ?_, ?_⟩
  · have hcond : ¬(0 ≤ skipQ.getD 0 ∧ 1 ≤ l ∧ l ≤ 200) := by
      rintro ⟨-, -, hle⟩
      omega
    have hval : AuditLogFilter.validatePagination skipQ (some l) = none := by
      unfold AuditLogFilter.validatePagination
      simp only [Option.getD_some]
      rw [if_neg hcond]
    unfold list_audit_logs
    rw [hval]
  · intro p hp
    unfold AuditLogFilter.validatePagination at hp
    simp only [Option.getD_none] at hp
    split at hp
    · cases hp
      rfl
    · cases hp
  · unfold AuditLogRepository.get_all
    exact le_trans (List.length_take_le _ _) (min_le_right _ _)

/-- Witness for C3 (amended): a request with limit=300 is likewise rejected. -/
theorem audit_log_page_size_bounds_witness :
    list_audit_logs ⟨0, [], false⟩ (some 1) (some 300)
      AuditLogQuery.noFilters = none :=
  (audit_log_page_size_bounds ⟨0, [], false⟩ (some 1) 300
    AuditLogQuery.noFilters 0 0 (by decide)).1
